import Mathlib

/-!
Verification development for the TechMeet rescheduling workflow.

Shallow embedding of the reschedule-request routes:
  * `POST /reschedule`            (src/routes/requestRescheduleRoute.ts)  → `requestReschedule`
  * `POST /handle-Reschedule`     (src/routes/ExpertRoutes.ts)           → `handleReschedule`
  * `GET /reschedule-requests/:ExpertId` (src/routes/ExpertRoutes.ts)    → `getRequestsByExpert`

The persistent MongoDB collections (bookings, rescheduling requests,
experts) are modelled as lists inside a `DB` state record; each route
handler becomes a pure function from the request parameters and the
current `DB` to a result value (the HTTP outcome) and the next `DB`.
-/

namespace TechMeet

/-- Booking status enum. The `BookingModel` file is not part of the sources;
modelled from the spec: `status ∈ {PENDING, CONFIRMED, RESCHEDULED, CANCELLED}`.
The route code only ever writes `Status.RESCHEDULED`. -/
inductive Status where
  | PENDING
  | CONFIRMED
  | RESCHEDULED
  | CANCELLED
  deriving Repr, DecidableEq

/-- A booking record: `_id`, `dateId`, `slotId` references and a `status`,
as read and written by the `handle-Reschedule` route. -/
structure Booking where
  id : String
  dateId : String
  slotId : String
  status : Status
  deriving Repr, DecidableEq

/-- A stored rescheduling request. The submit route persists
`Current_Booking_id`, `RequestedDateId`, `RequestedSlotId`; the by-expert
route additionally filters on an `expertId` field stored directly on the
document, which the submit route never sets — hence an `Option`. -/
structure ReschedulingRequest where
  currentBookingId : String
  requestedDateId : String
  requestedSlotId : String
  expertId : Option String
  deriving Repr, DecidableEq

/-- An expert directory entry; the by-expert route selects only `username`. -/
structure Expert where
  id : String
  username : String
  deriving Repr, DecidableEq

/-- The persistent state the three routes read and write. -/
structure DB where
  bookings : List Booking
  requests : List ReschedulingRequest
  experts : List Expert
  deriving Repr, DecidableEq

/-- Hexadecimal digit test, used by the ObjectId format check. -/
def isHexChar (c : Char) : Bool :=
  c.isDigit || (('a' ≤ c) && (c ≤ 'f')) || (('A' ≤ c) && (c ≤ 'F'))

/-- `mongoose.Types.ObjectId.isValid` on a string argument: a 24-character
hex string, or any 12-character string (12-byte buffer form). -/
def isValidObjectId (s : String) : Bool :=
  (s.length == 24 && s.toList.all isHexChar) || s.length == 12

/-- `BookingSchema.findById`: the booking with the given `_id`, if any. -/
def findBooking (db : DB) (bid : String) : Option Booking :=
  db.bookings.find? (fun b => b.id == bid)

/-- `Expert.findById`: the expert with the given `_id`, if any. -/
def findExpert (db : DB) (eid : String) : Option Expert :=
  db.experts.find? (fun e => e.id == eid)

/-- Is there a stored rescheduling request targeting this booking? -/
def hasActiveRequest (db : DB) (bid : String) : Bool :=
  db.requests.any (fun r => r.currentBookingId == bid)

/-- `booking.save()` after mutating fields: the stored document with this
`_id` is replaced by the updated one. -/
def replaceBooking (bs : List Booking) (bid : String) (nb : Booking) : List Booking :=
  bs.map (fun b => if b.id == bid then nb else b)

/-- `ReschedulingRequest.deleteOne({CurrentBookingId})`: removes at most one
matching document (the first match), and is a no-op when none matches. -/
def deleteOneRequest (rs : List ReschedulingRequest) (bid : String) : List ReschedulingRequest :=
  rs.eraseP (fun r => r.currentBookingId == bid)

/-- Outcome of `POST /reschedule`. -/
inductive SubmitResult where
  /-- 400: Zod schema validation failed. -/
  | validationError
  /-- Failure because an active request already exists for the booking. -/
  | conflictError
  /-- 201: request persisted. -/
  | created
  deriving Repr, DecidableEq

/-- Modelled from the spec: the Zod schema `reschedulingRequestSchemaZod`
(src/schemas/requestReschedule) is not under src/; per the spec it checks
that each of the three IDs is a syntactically valid identifier. Zod `parse`
is synchronous, so it can perform only such format checks, no store lookups. -/
def schemaValid (bid rdid rsid : String) : Bool :=
  isValidObjectId bid && isValidObjectId rdid && isValidObjectId rsid

/-- `POST /reschedule`: Zod-parse the body, then persist a new
`ReschedulingRequest` carrying exactly the three IDs (no `expertId` field is
set, and no booking is read or written).

The uniqueness branch is modelled from the spec: the Mongoose model
`../models/requestReschedule`, where the one-active-request-per-booking
constraint would live, is not under src/; the spec's repository contract says
`create` "fails with ValidationError ... if an active request already exists
for `bookingId`", so an existing active request makes the save fail with
`conflictError` instead of persisting a duplicate. -/
def requestReschedule (db : DB) (bid rdid rsid : String) : SubmitResult × DB :=
  if schemaValid bid rdid rsid then
    if hasActiveRequest db bid then
      (.conflictError, db)
    else
      (.created, { db with requests := db.requests ++ [⟨bid, rdid, rsid, none⟩] })
  else
    (.validationError, db)

/-- Outcome of `POST /handle-Reschedule`. -/
inductive DecideResult where
  /-- 404 "Booking not found". -/
  | notFoundBooking
  /-- 400 "Invalid date or slot ID". -/
  | invalidIds
  /-- 200 "Reschedule request accepted successfully", with the saved booking. -/
  | acceptedOk (booking : Booking)
  /-- 200 "Reschedule request rejected successfully". -/
  | rejectedOk
  /-- 400 "Invalid action". -/
  | invalidAction
  deriving Repr, DecidableEq

/-- `POST /handle-Reschedule`: look the booking up first (404 if absent);
for `accepted`, format-check the caller-supplied `RequestedDateId` and
`RequestedSlotId` (400 if invalid), overwrite the booking's `dateId`,
`slotId`, set `status` to RESCHEDULED, save it, then `deleteOne` the
request for this booking; for `rejected`, only `deleteOne` the request;
any other action is a 400 with no mutation. Neither branch checks that a
pending request actually exists before deleting. -/
def handleReschedule (db : DB) (bid rdid rsid action : String) : DecideResult × DB :=
  match findBooking db bid with
  | none => (.notFoundBooking, db)
  | some booking =>
    if action == "accepted" then
      if isValidObjectId rdid && isValidObjectId rsid then
        let nb : Booking := { booking with dateId := rdid, slotId := rsid, status := .RESCHEDULED }
        (.acceptedOk nb,
          { db with
              bookings := replaceBooking db.bookings bid nb,
              requests := deleteOneRequest db.requests bid })
      else
        (.invalidIds, db)
    else if action == "rejected" then
      (.rejectedOk, { db with requests := deleteOneRequest db.requests bid })
    else
      (.invalidAction, db)

/-- One entry of the by-expert list response. -/
structure FormattedRequest where
  currentBookingId : String
  requestedDateId : String
  requestedSlotId : String
  expertName : String
  deriving Repr, DecidableEq

/-- Outcome of `GET /reschedule-requests/:ExpertId`. -/
inductive ByExpertResult where
  /-- 404 "Expert not found". -/
  | expertNotFound
  /-- 404 "No reschedule requests found for this expert". -/
  | noRequests
  /-- 200 with the formatted list. -/
  | ok (list : List FormattedRequest)
  deriving Repr, DecidableEq

/-- `GET /reschedule-requests/:ExpertId`: the expert must exist (404
"Expert not found" otherwise); then
`ReschedulingRequest.find({ expertId: ExpertId })` selects the stored
requests whose own `expertId` field equals the given ID (a document without
the field matches no ID); an empty selection is the distinct 404
"No reschedule requests found for this expert". -/
def getRequestsByExpert (db : DB) (eid : String) : ByExpertResult :=
  match findExpert db eid with
  | none => .expertNotFound
  | some expert =>
    let selected := db.requests.filter (fun r => r.expertId == some eid)
    if selected.isEmpty then
      .noRequests
    else
      .ok (selected.map (fun r =>
        ⟨r.currentBookingId, r.requestedDateId, r.requestedSlotId, expert.username⟩))

/-! ### Helper lemmas about the list-level store operations -/

/-- Erasing one match from a list holding at most one match leaves none. -/
theorem countP_eraseP_eq_zero {α : Type} (p : α → Bool) (l : List α)
    (h : l.countP p ≤ 1) : (l.eraseP p).countP p = 0 := by
  induction l with
  | nil => simp
  | cons a t ih =>
    by_cases hp : p a
    · rw [List.eraseP_cons_of_pos hp]
      rw [List.countP_cons_of_pos _ _ hp] at h
      omega
    · rw [List.eraseP_cons_of_neg hp, List.countP_cons_of_neg _ _ hp]
      rw [List.countP_cons_of_neg _ _ hp] at h
      exact ih h

/-- `eraseP` over a list with no match followed by one match removes
exactly the appended element. -/
theorem eraseP_append_singleton {α : Type} (p : α → Bool) (l : List α) (a : α)
    (hl : l.countP p = 0) (ha : p a = true) : (l ++ [a]).eraseP p = l := by
  induction l with
  | nil => simp [List.eraseP_cons_of_pos ha]
  | cons b t ih =>
    have hb : ¬ p b := by
      intro hpb
      rw [List.countP_cons_of_pos _ _ hpb] at hl
      omega
    rw [List.countP_cons_of_neg _ _ hb] at hl
    simp only [List.cons_append, List.eraseP_cons_of_neg hb, ih hl]

/-- No active request for a booking means the matching count is zero. -/
theorem countP_eq_zero_of_hasActive_false (db : DB) (bid : String)
    (h : hasActiveRequest db bid = false) :
    db.requests.countP (fun r => r.currentBookingId == bid) = 0 := by
  rw [List.countP_eq_zero]
  intro r hr
  exact List.any_eq_false.mp h r hr

/-- After `replaceBooking`, looking the booking up finds the replacement. -/
theorem findBooking_replaceBooking (bs : List Booking) (bid : String) (b nb : Booking)
    (hf : bs.find? (fun x => x.id == bid) = some b) (hid : (nb.id == bid) = true) :
    (replaceBooking bs bid nb).find? (fun x => x.id == bid) = some nb := by
  induction bs with
  | nil => simp at hf
  | cons a t ih =>
    by_cases h : (a.id == bid) = true
    · simp [replaceBooking, List.find?, h, hid]
    · have hfa : (a.id == bid) = false := by simpa using h
      simp only [List.find?, hfa] at hf
      simp only [replaceBooking, List.map_cons, hfa, Bool.false_eq_true, if_false, List.find?]
      exact ih hf

/-! ### Sample records used by witnesses and counterexamples -/

/-- A sample booking (all IDs are 12-character strings, hence valid ObjectIds). -/
def bk1 : Booking := ⟨"bbbbbbbbbbb1", "ddddddddddd0", "sssssssssss0", .PENDING⟩

/-- A sample pending rescheduling request targeting `bk1`. -/
def rq1 : ReschedulingRequest := ⟨"bbbbbbbbbbb1", "ddddddddddd1", "sssssssssss1", none⟩

/-- A sample expert. -/
def ex1 : Expert := ⟨"eeeeeeeeeee1", "alice"⟩

/-! ### Claims -/

/-- C1: for every booking, at most one active `ReschedulingRequest` exists at
a time: submitting a reschedule request for a `bookingId` that already has an
active request fails with a validation/conflict error and persists nothing,
and the at-most-one-active-request-per-booking invariant is preserved by
`submit`. (Uniqueness enforcement is modelled from the spec's repository
contract; see `requestReschedule`.) -/
theorem submit_unique_active_request (db : DB) (bid rdid rsid : String) :
    (hasActiveRequest db bid = true →
      ((requestReschedule db bid rdid rsid).1 = .validationError ∨
        (requestReschedule db bid rdid rsid).1 = .conflictError) ∧
      (requestReschedule db bid rdid rsid).2 = db) ∧
    ((∀ b : String, db.requests.countP (fun r => r.currentBookingId == b) ≤ 1) →
      ∀ b : String,
        (requestReschedule db bid rdid rsid).2.requests.countP
          (fun r => r.currentBookingId == b) ≤ 1) := by
  constructor
  · intro h
    by_cases hs : schemaValid bid rdid rsid
    · simp [requestReschedule, hs, h]
    · simp [requestReschedule, hs]
  · intro hinv b
    by_cases hs : schemaValid bid rdid rsid
    · by_cases ha : hasActiveRequest db bid
      · simpa [requestReschedule, hs, ha] using hinv b
      · have ha' : hasActiveRequest db bid = false := by simpa using ha
        have hred : (requestReschedule db bid rdid rsid).2.requests
            = db.requests ++ [⟨bid, rdid, rsid, none⟩] := by
          simp [requestReschedule, hs, ha']
        rw [hred, List.countP_append]
        by_cases hb : (bid == b) = true
        · have hz := countP_eq_zero_of_hasActive_false db bid ha'
          have hbid : bid = b := by simpa using hb
          subst hbid
          simp [hz, List.countP_cons, List.countP_nil]
        · have hb' : (bid == b) = false := by simpa using hb
          have : ([(⟨bid, rdid, rsid, none⟩ : ReschedulingRequest)].countP
              (fun r => r.currentBookingId == b)) = 0 := by
            simp [List.countP_cons, List.countP_nil, hb']
          rw [this]
          simpa using hinv b
    · simpa [requestReschedule, hs] using hinv b

/-- C1 witness: with one active request stored for `bk1`, a second submit for
the same booking yields a conflict and leaves the store unchanged, and the
uniqueness invariant holds afterwards. -/
theorem submit_unique_active_request_witness :
    (((requestReschedule ⟨[bk1], [rq1], []⟩ "bbbbbbbbbbb1" "ddddddddddd2" "sssssssssss2").1
          = .validationError ∨
      (requestReschedule ⟨[bk1], [rq1], []⟩ "bbbbbbbbbbb1" "ddddddddddd2" "sssssssssss2").1
          = .conflictError) ∧
      (requestReschedule ⟨[bk1], [rq1], []⟩ "bbbbbbbbbbb1" "ddddddddddd2" "sssssssssss2").2
          = ⟨[bk1], [rq1], []⟩) ∧
    (∀ b : String,
      (requestReschedule ⟨[bk1], [rq1], []⟩ "bbbbbbbbbbb1" "ddddddddddd2" "sssssssssss2").2.requests.countP
        (fun r => r.currentBookingId == b) ≤ 1) :=
  ⟨(submit_unique_active_request ⟨[bk1], [rq1], []⟩ "bbbbbbbbbbb1" "ddddddddddd2" "sssssssssss2").1
      (by decide),
   (submit_unique_active_request ⟨[bk1], [rq1], []⟩ "bbbbbbbbbbb1" "ddddddddddd2" "sssssssssss2").2
      (fun b => le_trans (List.countP_le_length _) (by decide))⟩

/-- C2 (code bug, per the spec's own Design Notes): deciding on an existing
booking that has no pending request returns a 200 success while deleting
nothing — the route deletes without an existence check — instead of the
NotFound the spec requires. Evaluated at the failing input: booking `bk1`
exists, the request store is empty, action is `rejected`. -/
theorem handleReschedule_silent_success_no_request :
    hasActiveRequest ⟨[bk1], [], []⟩ "bbbbbbbbbbb1" = false ∧
    handleReschedule ⟨[bk1], [], []⟩ "bbbbbbbbbbb1" "ddddddddddd1" "sssssssssss1" "rejected"
      = (.rejectedOk, ⟨[bk1], [], []⟩) := by
  constructor
  · rfl
  · rfl

/-- C3 counterexample: the accepted branch writes the caller-supplied
`RequestedDateId`/`RequestedSlotId` from the decide call's body, not the
values stored on the pending request. With pending request `rq1`
(requestedDateId `ddddddddddd1`) and a decide call carrying the different
valid ID `ddddddddddd2`, the booking ends up with `ddddddddddd2`, not the
pending request's value as the claim states. -/
theorem handleReschedule_accepted_caller_ids_counterexample :
    (handleReschedule ⟨[bk1], [rq1], []⟩ "bbbbbbbbbbb1" "ddddddddddd2" "sssssssssss2" "accepted").1
      = .acceptedOk ⟨"bbbbbbbbbbb1", "ddddddddddd2", "sssssssssss2", .RESCHEDULED⟩ ∧
    rq1.requestedDateId ≠ "ddddddddddd2" ∧
    findBooking
      (handleReschedule ⟨[bk1], [rq1], []⟩ "bbbbbbbbbbb1" "ddddddddddd2" "sssssssssss2" "accepted").2
      "bbbbbbbbbbb1"
      ≠ some ⟨"bbbbbbbbbbb1", rq1.requestedDateId, rq1.requestedSlotId, .RESCHEDULED⟩ := by
  refine ⟨rfl, by decide, by decide⟩

/-- C3 (amended): deciding `accepted` on an existing booking, with valid
identifiers supplied in the call, overwrites the booking's `dateId`/`slotId`
with the call's identifiers, sets the status to RESCHEDULED, persists the
booking, and deletes the request, so that — when at most one request was
stored for the booking, as the uniqueness invariant guarantees — no request
for that booking remains. In the intended flow the call carries exactly the
pending request's `requestedDateId`/`requestedSlotId`, and then the outcome
is the one the claim describes. -/
theorem handleReschedule_accepted_spec (db : DB) (bid rdid rsid : String) (b : Booking)
    (hf : findBooking db bid = some b)
    (hd : isValidObjectId rdid = true) (hs : isValidObjectId rsid = true)
    (hone : db.requests.countP (fun r => r.currentBookingId == bid) ≤ 1) :
    (handleReschedule db bid rdid rsid "accepted").1
        = .acceptedOk { b with dateId := rdid, slotId := rsid, status := .RESCHEDULED } ∧
    findBooking (handleReschedule db bid rdid rsid "accepted").2 bid
        = some { b with dateId := rdid, slotId := rsid, status := .RESCHEDULED } ∧
    (handleReschedule db bid rdid rsid "accepted").2.requests.countP
        (fun r => r.currentBookingId == bid) = 0 := by
  have hred : handleReschedule db bid rdid rsid "accepted"
      = (.acceptedOk { b with dateId := rdid, slotId := rsid, status := .RESCHEDULED },
         { db with
             bookings := replaceBooking db.bookings bid
               { b with dateId := rdid, slotId := rsid, status := .RESCHEDULED },
             requests := deleteOneRequest db.requests bid }) := by
    simp [handleReschedule, hf, hd, hs]
  refine ⟨by rw [hred], ?_, ?_⟩
  · rw [hred]
    have hbid : (b.id == bid) = true := by
      have := List.find?_some hf
      simpa using this
    exact findBooking_replaceBooking db.bookings bid b _ hf (by simpa using hbid)
  · rw [hred]
    exact countP_eraseP_eq_zero _ _ hone

/-- C3 witness: with `bk1` stored and the single pending request `rq1`,
accepting with `rq1`'s own identifiers reschedules the booking to them and
empties the request store for that booking. -/
theorem handleReschedule_accepted_spec_witness :
    (handleReschedule ⟨[bk1], [rq1], []⟩ "bbbbbbbbbbb1" "ddddddddddd1" "sssssssssss1" "accepted").1
        = .acceptedOk { bk1 with dateId := "ddddddddddd1", slotId := "sssssssssss1",
                                 status := .RESCHEDULED } ∧
    findBooking
        (handleReschedule ⟨[bk1], [rq1], []⟩ "bbbbbbbbbbb1" "ddddddddddd1" "sssssssssss1" "accepted").2
        "bbbbbbbbbbb1"
        = some { bk1 with dateId := "ddddddddddd1", slotId := "sssssssssss1",
                          status := .RESCHEDULED } ∧
    (handleReschedule ⟨[bk1], [rq1], []⟩ "bbbbbbbbbbb1" "ddddddddddd1" "sssssssssss1" "accepted").2.requests.countP
        (fun r => r.currentBookingId == "bbbbbbbbbbb1") = 0 :=
  handleReschedule_accepted_spec ⟨[bk1], [rq1], []⟩ "bbbbbbbbbbb1" "ddddddddddd1" "sssssssssss1"
    bk1 (by decide) (by decide) (by decide) (by decide)

/-- C4: for a booking that exists, submitting a reschedule request (from a
state with no active request for it) and then deciding `rejected` restores
the store to exactly the original state: no field of any booking is mutated
by either operation, and the request created by submit is deleted. -/
theorem submit_then_reject_roundtrip (db : DB) (bid rdid rsid : String) (b : Booking)
    (hf : findBooking db bid = some b)
    (hv : schemaValid bid rdid rsid = true)
    (hno : hasActiveRequest db bid = false) :
    (requestReschedule db bid rdid rsid).1 = .created ∧
    (requestReschedule db bid rdid rsid).2.bookings = db.bookings ∧
    handleReschedule (requestReschedule db bid rdid rsid).2 bid rdid rsid "rejected"
      = (.rejectedOk, db) := by
  have ha' : hasActiveRequest db bid = false := hno
  have hsub : requestReschedule db bid rdid rsid
      = (.created, { db with requests := db.requests ++ [⟨bid, rdid, rsid, none⟩] }) := by
    simp [requestReschedule, hv, ha']
  refine ⟨by rw [hsub], by rw [hsub], ?_⟩
  rw [hsub]
  have hf2 : findBooking { db with requests := db.requests ++ [⟨bid, rdid, rsid, none⟩] } bid
      = some b := hf
  have herase : deleteOneRequest (db.requests ++ [⟨bid, rdid, rsid, none⟩]) bid
      = db.requests := by
    apply eraseP_append_singleton
    · exact countP_eq_zero_of_hasActive_false db bid hno
    · simp
  simp [handleReschedule, hf2, deleteOneRequest] at herase ⊢
  rw [herase]

/-- C4 witness: round trip at a concrete store containing only `bk1`. -/
theorem submit_then_reject_roundtrip_witness :
    (requestReschedule ⟨[bk1], [], []⟩ "bbbbbbbbbbb1" "ddddddddddd1" "sssssssssss1").1
        = .created ∧
    (requestReschedule ⟨[bk1], [], []⟩ "bbbbbbbbbbb1" "ddddddddddd1" "sssssssssss1").2.bookings
        = [bk1] ∧
    handleReschedule
        (requestReschedule ⟨[bk1], [], []⟩ "bbbbbbbbbbb1" "ddddddddddd1" "sssssssssss1").2
        "bbbbbbbbbbb1" "ddddddddddd1" "sssssssssss1" "rejected"
      = (.rejectedOk, ⟨[bk1], [], []⟩) :=
  submit_then_reject_roundtrip ⟨[bk1], [], []⟩ "bbbbbbbbbbb1" "ddddddddddd1" "sssssssssss1" bk1
    (by decide) (by decide) (by decide)

/-- C5 counterexample: a decide call whose action is outside
{accepted, rejected} does not always fail with InvalidArgument (400): when
the `bookingId` refers to no booking, the route returns 404 NotFound first.
Here the store is empty and the action is `cancel`. -/
theorem handleReschedule_invalid_action_counterexample :
    findBooking ⟨[], [], []⟩ "bbbbbbbbbbb9" = none ∧
    (handleReschedule ⟨[], [], []⟩ "bbbbbbbbbbb9" "ddddddddddd1" "sssssssssss1" "cancel").1
      = .notFoundBooking ∧
    (handleReschedule ⟨[], [], []⟩ "bbbbbbbbbbb9" "ddddddddddd1" "sssssssssss1" "cancel").1
      ≠ .invalidAction := by
  refine ⟨rfl, rfl, by decide⟩

/-- C5 (amended): for a decide call on an existing booking whose action is
neither `accepted` nor `rejected`, the route fails with InvalidArgument
(400 "Invalid action") and performs no mutation — the resulting store is
exactly the input store. (For a missing booking the result is the 404
NotFound instead, also with no mutation.) -/
theorem handleReschedule_invalid_action_spec (db : DB) (bid rdid rsid action : String)
    (b : Booking) (hf : findBooking db bid = some b)
    (ha : action ≠ "accepted") (hr : action ≠ "rejected") :
    handleReschedule db bid rdid rsid action = (.invalidAction, db) := by
  have ha' : (action == "accepted") = false := by simpa using ha
  have hr' : (action == "rejected") = false := by simpa using hr
  simp [handleReschedule, hf, ha', hr']

/-- C5 witness: action `cancel` on the existing booking `bk1` yields the
400 InvalidArgument outcome and leaves the store untouched. -/
theorem handleReschedule_invalid_action_spec_witness :
    handleReschedule ⟨[bk1], [rq1], []⟩ "bbbbbbbbbbb1" "ddddddddddd1" "sssssssssss1" "cancel"
      = (.invalidAction, ⟨[bk1], [rq1], []⟩) :=
  handleReschedule_invalid_action_spec ⟨[bk1], [rq1], []⟩ "bbbbbbbbbbb1" "ddddddddddd1"
    "sssssssssss1" "cancel" bk1 (by decide) (by decide) (by decide)

/-- C6: a decide call whose `bookingId` matches no stored booking fails with
the 404 booking NotFound and performs no mutation, whatever the action and
identifiers are — the booking lookup is the first thing the route does. -/
theorem handleReschedule_missing_booking (db : DB) (bid rdid rsid action : String)
    (hf : findBooking db bid = none) :
    handleReschedule db bid rdid rsid action = (.notFoundBooking, db) := by
  simp [handleReschedule, hf]

/-- C6 witness: deciding against an empty store yields the booking NotFound
and leaves the store unchanged. -/
theorem handleReschedule_missing_booking_witness :
    handleReschedule ⟨[], [rq1], [ex1]⟩ "bbbbbbbbbbb1" "ddddddddddd1" "sssssssssss1" "accepted"
      = (.notFoundBooking, ⟨[], [rq1], [ex1]⟩) :=
  handleReschedule_missing_booking ⟨[], [rq1], [ex1]⟩ "bbbbbbbbbbb1" "ddddddddddd1"
    "sssssssssss1" "accepted" (by decide)

/-- C7: the by-expert query distinguishes its two failure cases: an unknown
expert ID yields the "Expert not found" 404, an existing expert whose
filtered request list is empty yields the distinct "No reschedule requests
found for this expert" 404, and the two outcomes are different values. -/
theorem byExpert_two_distinct_notfounds (db : DB) (eid : String) :
    (findExpert db eid = none → getRequestsByExpert db eid = .expertNotFound) ∧
    (∀ e : Expert, findExpert db eid = some e →
      db.requests.filter (fun r => r.expertId == some eid) = [] →
      getRequestsByExpert db eid = .noRequests) ∧
    ByExpertResult.expertNotFound ≠ ByExpertResult.noRequests := by
  refine ⟨?_, ?_, by decide⟩
  · intro h
    simp [getRequestsByExpert, h]
  · intro e he hempty
    simp [getRequestsByExpert, he, hempty]

/-- C7 witness: an empty expert directory gives the expert 404, and expert
`ex1` with no matching requests gives the distinct no-requests 404. -/
theorem byExpert_two_distinct_notfounds_witness :
    getRequestsByExpert ⟨[], [rq1], []⟩ "eeeeeeeeeee1" = .expertNotFound ∧
    getRequestsByExpert ⟨[], [rq1], [ex1]⟩ "eeeeeeeeeee1" = .noRequests :=
  ⟨(byExpert_two_distinct_notfounds ⟨[], [rq1], []⟩ "eeeeeeeeeee1").1 (by decide),
   (byExpert_two_distinct_notfounds ⟨[], [rq1], [ex1]⟩ "eeeeeeeeeee1").2.1 ex1
     (by decide) (by decide)⟩

/-- C8 counterexample: submit does not check booking existence. On an empty
store — so the referenced booking does not exist — a schema-valid submit
succeeds (201) and persists the request, refuting "succeeds only when the
referenced booking exists". The route reads no booking at all. -/
theorem submit_no_booking_check_counterexample :
    findBooking ⟨[], [], []⟩ "bbbbbbbbbbb1" = none ∧
    requestReschedule ⟨[], [], []⟩ "bbbbbbbbbbb1" "ddddddddddd1" "sssssssssss1"
      = (.created, ⟨[], [⟨"bbbbbbbbbbb1", "ddddddddddd1", "sssssssssss1", none⟩], []⟩) := by
  refine ⟨rfl, rfl⟩

/-- C8 (amended): submit succeeds only when the submitted identifiers are
syntactically valid — booking existence is not checked — and on success it
appends exactly the new `ReschedulingRequest` carrying the submitted IDs.
A schema-invalid body fails with ValidationError and persists nothing; an
existing active request (the spec-modelled uniqueness guard) also blocks
success with no mutation; and no submit outcome ever mutates any stored
booking. -/
theorem submit_spec (db : DB) (bid rdid rsid : String) :
    ((requestReschedule db bid rdid rsid).1 = .created →
      isValidObjectId rdid = true ∧ isValidObjectId rsid = true ∧
      (requestReschedule db bid rdid rsid).2
        = { db with requests := db.requests ++ [⟨bid, rdid, rsid, none⟩] }) ∧
    (schemaValid bid rdid rsid = false →
      requestReschedule db bid rdid rsid = (.validationError, db)) ∧
    (hasActiveRequest db bid = true →
      (requestReschedule db bid rdid rsid).1 ≠ .created ∧
      (requestReschedule db bid rdid rsid).2 = db) ∧
    (requestReschedule db bid rdid rsid).2.bookings = db.bookings := by
  refine ⟨?_, ?_, ?_, ?_⟩
  · intro h
    by_cases hs : schemaValid bid rdid rsid
    · by_cases ha : hasActiveRequest db bid
      · simp [requestReschedule, hs, ha] at h
      · have ha' : hasActiveRequest db bid = false := by simpa using ha
        have hv : (isValidObjectId bid = true ∧
            isValidObjectId rdid = true) ∧ isValidObjectId rsid = true := by
          have := hs
          unfold schemaValid at this
          simpa [Bool.and_eq_true] using this
        exact ⟨hv.1.2, hv.2, by simp [requestReschedule, hs, ha']⟩
    · have hs' : schemaValid bid rdid rsid = false := by simpa using hs
      simp [requestReschedule, hs'] at h
  · intro h
    simp [requestReschedule, h]
  · intro h
    by_cases hs : schemaValid bid rdid rsid
    · exact ⟨by simp [requestReschedule, hs, h], by simp [requestReschedule, hs, h]⟩
    · have hs' : schemaValid bid rdid rsid = false := by simpa using hs
      exact ⟨by simp [requestReschedule, hs'], by simp [requestReschedule, hs']⟩
  · by_cases hs : schemaValid bid rdid rsid
    · by_cases ha : hasActiveRequest db bid
      · simp [requestReschedule, hs, ha]
      · have ha' : hasActiveRequest db bid = false := by simpa using ha
        simp [requestReschedule, hs, ha']
    · have hs' : schemaValid bid rdid rsid = false := by simpa using hs
      simp [requestReschedule, hs']

/-- C8 witness: on a store holding only booking `bk1`, a schema-valid submit
persists the request with the submitted valid IDs, leaving the bookings
unchanged; a malformed `currentBookingId` fails with ValidationError and no
mutation; and with `rq1` already stored, a second submit for its booking
does not succeed and changes nothing. -/
theorem submit_spec_witness :
    (isValidObjectId "ddddddddddd1" = true ∧ isValidObjectId "sssssssssss1" = true ∧
      (requestReschedule ⟨[bk1], [], [ex1]⟩ "bbbbbbbbbbb1" "ddddddddddd1" "sssssssssss1").2
        = ⟨[bk1], [⟨"bbbbbbbbbbb1", "ddddddddddd1", "sssssssssss1", none⟩], [ex1]⟩) ∧
    requestReschedule ⟨[bk1], [], [ex1]⟩ "x" "ddddddddddd1" "sssssssssss1"
      = (.validationError, ⟨[bk1], [], [ex1]⟩) ∧
    ((requestReschedule ⟨[bk1], [rq1], []⟩ "bbbbbbbbbbb1" "ddddddddddd1" "sssssssssss1").1
        ≠ .created ∧
      (requestReschedule ⟨[bk1], [rq1], []⟩ "bbbbbbbbbbb1" "ddddddddddd1" "sssssssssss1").2
        = ⟨[bk1], [rq1], []⟩) ∧
    (requestReschedule ⟨[bk1], [], [ex1]⟩ "bbbbbbbbbbb1" "ddddddddddd1" "sssssssssss1").2.bookings
      = [bk1] := by
  have h1 := (submit_spec ⟨[bk1], [], [ex1]⟩ "bbbbbbbbbbb1" "ddddddddddd1" "sssssssssss1").1
    (by rfl)
  have h2 := (submit_spec ⟨[bk1], [], [ex1]⟩ "x" "ddddddddddd1" "sssssssssss1").2.1
    (by decide)
  have h3 := (submit_spec ⟨[bk1], [rq1], []⟩ "bbbbbbbbbbb1" "ddddddddddd1" "sssssssssss1").2.2.1
    (by decide)
  have h4 := (submit_spec ⟨[bk1], [], [ex1]⟩ "bbbbbbbbbbb1" "ddddddddddd1" "sssssssssss1").2.2.2
  exact ⟨⟨h1.1, h1.2.1, by simpa using h1.2.2⟩, h2, h3, h4⟩

/-- C9: the booking-existence check takes precedence over every other
validation in decide: with a `bookingId` matching no booking, the outcome is
the 404 booking NotFound — never InvalidArgument, never the invalid-IDs
ValidationError — and the store is unchanged, for every action value and for
arbitrarily malformed requested identifiers. -/
theorem handleReschedule_notfound_precedence (db : DB) (bid rdid rsid action : String)
    (hf : findBooking db bid = none) :
    (handleReschedule db bid rdid rsid action).1 = .notFoundBooking ∧
    (handleReschedule db bid rdid rsid action).1 ≠ .invalidAction ∧
    (handleReschedule db bid rdid rsid action).1 ≠ .invalidIds ∧
    (handleReschedule db bid rdid rsid action).2 = db := by
  have h : handleReschedule db bid rdid rsid action = (.notFoundBooking, db) := by
    simp [handleReschedule, hf]
  rw [h]
  exact ⟨rfl, by simp, by simp, rfl⟩

/-- C9 witness: a missing booking combined with an invalid action and
malformed requested IDs still yields the booking 404 with no mutation. -/
theorem handleReschedule_notfound_precedence_witness :
    (handleReschedule ⟨[bk1], [rq1], []⟩ "bbbbbbbbbbb9" "x" "y" "frobnicate").1
        = .notFoundBooking ∧
    (handleReschedule ⟨[bk1], [rq1], []⟩ "bbbbbbbbbbb9" "x" "y" "frobnicate").1
        ≠ .invalidAction ∧
    (handleReschedule ⟨[bk1], [rq1], []⟩ "bbbbbbbbbbb9" "x" "y" "frobnicate").1
        ≠ .invalidIds ∧
    (handleReschedule ⟨[bk1], [rq1], []⟩ "bbbbbbbbbbb9" "x" "y" "frobnicate").2
        = ⟨[bk1], [rq1], []⟩ :=
  handleReschedule_notfound_precedence ⟨[bk1], [rq1], []⟩ "bbbbbbbbbbb9" "x" "y" "frobnicate"
    (by decide)

/-- C10: for an existing expert, the by-expert query selects exactly the
stored requests whose own `expertId` field equals the given ID (returning
their formatted projection when any exist), and a stored request whose
`expertId` field is absent is selected for no expert ID whatsoever — the
filter never derives the expert through the booking's plan/expert chain. -/
theorem byExpert_filters_on_stored_expertId (db : DB) (eid : String) (e : Expert)
    (hf : findExpert db eid = some e)
    (hne : db.requests.filter (fun r => r.expertId == some eid) ≠ []) :
    getRequestsByExpert db eid
      = .ok ((db.requests.filter (fun r => r.expertId == some eid)).map
          (fun r => ⟨r.currentBookingId, r.requestedDateId, r.requestedSlotId, e.username⟩)) ∧
    (∀ eid2 : String, ∀ r ∈ db.requests, r.expertId = none →
      r ∉ db.requests.filter (fun r2 => r2.expertId == some eid2)) := by
  constructor
  · have hne' : (db.requests.filter (fun r => r.expertId == some eid)).isEmpty = false := by
      simpa [List.isEmpty_iff] using hne
    simp [getRequestsByExpert, hf, hne']
  · intro eid2 r _ hnone hmem
    have := (List.mem_filter.mp hmem).2
    rw [hnone] at this
    simp at this

/-- C10 witness: with a request tagged `expertId = ex1.id` and `rq1` (which
has no `expertId` field) both stored, the query for `ex1` returns exactly the
tagged request's projection, and `rq1` is in no expert's selection. -/
theorem byExpert_filters_on_stored_expertId_witness :
    getRequestsByExpert
        ⟨[bk1], [rq1, ⟨"bbbbbbbbbbb2", "ddddddddddd2", "sssssssssss2", some "eeeeeeeeeee1"⟩], [ex1]⟩
        "eeeeeeeeeee1"
      = .ok [⟨"bbbbbbbbbbb2", "ddddddddddd2", "sssssssssss2", "alice"⟩] ∧
    rq1 ∉ ([rq1, ⟨"bbbbbbbbbbb2", "ddddddddddd2", "sssssssssss2", some "eeeeeeeeeee1"⟩].filter
        (fun r2 => r2.expertId == some "eeeeeeeeeee1")) := by
  have h := byExpert_filters_on_stored_expertId
    ⟨[bk1], [rq1, ⟨"bbbbbbbbbbb2", "ddddddddddd2", "sssssssssss2", some "eeeeeeeeeee1"⟩], [ex1]⟩
    "eeeeeeeeeee1" ex1 (by decide) (by decide)
  refine ⟨?_, h.2 "eeeeeeeeeee1" rq1 (by decide) (by decide)⟩
  rw [h.1]
  rfl

end TechMeet
